import Mathlib

/-!
Patient record API (`main.go`): handlers over an explicit store

The five HTTP handlers of `main.go` are embedded as pure functions
`DB → Request → Response × DB`.  The Go global `db *sql.DB` becomes the
explicitly passed `DB` value; every handler returns the response it writes
together with the database it leaves behind.

What lies outside the repository is modelled once, below, and named as such:
`strconv.Atoi`, the outcome of `json.Decoder.Decode`, the struct encoding of
`json.Encoder.Encode`, `http.Error`, and the `patients` table with the five SQL
statements the handlers issue.
-/

namespace PatientApi

/-! ## Transport data -/

/-- Go struct `Patient` (main.go 16-22).  `Prescription *string` is `Option String`:
`none` is the nil pointer, `some s` a pointer to `s` (so `some ""` is a non-nil
pointer to the empty string).  `int` is the 64-bit Go integer; no arithmetic is
performed on it, it is carried as `Int`. -/
structure Patient where
  ID : Int
  Name : String
  Age : Int
  Doctor : String
  Prescription : Option String
deriving DecidableEq, Repr

/-- The zero value `var patient Patient`. -/
def Patient.zero : Patient := ⟨0, "", 0, "", none⟩

/-- JSON scalar values occurring in an encoded `Patient`. -/
inductive JVal where
  | num (n : Int)
  | str (s : String)
deriving DecidableEq, Repr

/-- Encoding `json.NewEncoder(w).Encode(patient)` as a JSON object (key/value pairs in
struct order), following the struct tags of `Patient`: `id`, `name`, `age`,
`doctor` are always written; `prescription,omitempty` on a pointer field is
written exactly when the pointer is non-nil. -/
def encodePatient (p : Patient) : List (String × JVal) :=
  [("id", JVal.num p.ID), ("name", JVal.str p.Name), ("age", JVal.num p.Age),
   ("doctor", JVal.str p.Doctor)] ++
  (match p.Prescription with
   | none => []
   | some s => [("prescription", JVal.str s)])

/-- Keys of a JSON object. -/
def jsonKeys (o : List (String × JVal)) : List String := o.map Prod.fst

/-- Value stored under a key of a JSON object (first occurrence). -/
def jsonGet (o : List (String × JVal)) (k : String) : Option JVal :=
  (o.find? (fun kv => kv.1 == k)).map Prod.snd

/-- Body written to the `http.ResponseWriter`. -/
inductive Body where
  | empty
  | text (s : String)
  | json (obj : List (String × JVal))
deriving DecidableEq, Repr

/-- What a handler leaves in the `http.ResponseWriter`: status code and body. -/
structure Response where
  status : Nat
  body : Body
deriving DecidableEq, Repr

def StatusOK : Nat := 200
def StatusCreated : Nat := 201
def StatusNoContent : Nat := 204
def StatusBadRequest : Nat := 400
def StatusNotFound : Nat := 404
def StatusInternalServerError : Nat := 500

/-- Go `http.Error(w, msg, code)`: status `code`, plain-text body `msg` and a newline. -/
def httpError (msg : String) (code : Nat) : Response := ⟨code, Body.text (msg ++ "\n")⟩

/-- Writing `json.NewEncoder(w).Encode(patient)` on a writer whose header is `code`
(200 when `WriteHeader` was not called). -/
def writeJSON (code : Nat) (p : Patient) : Response := ⟨code, Body.json (encodePatient p)⟩

/-- The parts of `*http.Request` the handlers read: the route variable
`mux.Vars(r)["id"]` and the outcome of `json.NewDecoder(r.Body).Decode(&patient)`
on a zero `Patient` (`Except.error msg` is a decode error with `err.Error() = msg`,
`Except.ok p` the struct the decoder filled in). -/
structure Request where
  id : String
  body : Except String Patient

/-- Go `strconv.Atoi` on a 64-bit platform: an optional single sign, then one or more
ASCII decimal digits, the value within the range of `int`; anything else is an
error (`none`). -/
def atoi (s : String) : Option Int :=
  let cs := s.toList
  let neg : Bool := match cs with
    | '-' :: _ => true
    | _ => false
  let ds : List Char := match cs with
    | '-' :: t => t
    | '+' :: t => t
    | _ => cs
  if ds.isEmpty || !(ds.all Char.isDigit) then none
  else
    let n : Nat := ds.foldl (fun a c => a * 10 + (c.toNat - 48)) 0
    let v : Int := if neg then -(n : Int) else (n : Int)
    if -9223372036854775808 ≤ v ∧ v ≤ 9223372036854775807 then some v else none

/-! ## The store -/

/-- Modelled from the spec: a row of the `patients` table, whose schema is not in
the repository (spec 6: a single table keyed by `id` with columns `name`, `age`,
`doctor`, `prescription` (nullable)).  `prescription = none` is SQL NULL. -/
structure Row where
  id : Int
  name : String
  age : Int
  doctor : String
  prescription : Option String
deriving DecidableEq, Repr

/-- Modelled from the spec: the state of the `patients` table: its rows in storage
order and the next value of the sequence from which the store assigns `id`
(spec 3: `id` is assigned by the store on creation). -/
structure Table where
  rows : List Row
  nextId : Int
deriving DecidableEq, Repr

/-- The five parameterised statements issued by the handlers, with their arguments. -/
inductive Stmt where
  | insert (name : String) (age : Int) (doctor : String)
  | select (id : Int)
  | update (name : String) (age : Int) (doctor : String) (id : Int)
  | updatePrescription (prescription : Option String) (id : Int)
  | delete (id : Int)
deriving DecidableEq, Repr

/-- The handle `db *sql.DB`: the table behind it, whether the store is failing
(`fault = some msg`: every statement returns an error with that message and
changes nothing; spec 7 "store/infrastructure errors"), and the record of the
statements sent through the handle so far. -/
structure DB where
  table : Table
  fault : Option String
  log : List Stmt
deriving DecidableEq, Repr

/-- Errors of `database/sql`: the sentinel `sql.ErrNoRows`, or any other error. -/
inductive SqlError where
  | errNoRows
  | other (msg : String)
deriving DecidableEq, Repr

/-- Method `err.Error()`. -/
def SqlError.Error : SqlError → String
  | SqlError.errNoRows => "sql: no rows in result set"
  | SqlError.other msg => msg

/-- Go `sql.NullString`. -/
structure NullString where
  String : String
  Valid : Bool
deriving DecidableEq, Repr

/-- Result of `Scan` of a nullable text column into a `sql.NullString`. -/
def scanNullString : Option String → NullString
  | none => ⟨"", false⟩
  | some s => ⟨s, true⟩

/-- The handle after one more statement went through it. -/
def DB.sent (db : DB) (s : Stmt) : DB := { db with log := db.log ++ [s] }

/-- Modelled from the spec: `INSERT INTO patients(name, age, doctor) VALUES($1, $2, $3)
RETURNING id` followed by `Scan(&id)`.  The store draws the id from its sequence;
`prescription` is not listed, so the new row holds NULL there.  The table is keyed by
`id`: when a row with the drawn id exists the insert is rejected and no row is added. -/
def DB.queryRowInsert (db : DB) (name : String) (age : Int) (doctor : String) :
    Except SqlError Int × DB :=
  let db1 := db.sent (Stmt.insert name age doctor)
  match db.fault with
  | some msg => (Except.error (SqlError.other msg), db1)
  | none =>
    let id := db.table.nextId
    if db.table.rows.any (fun r => r.id == id) then
      (Except.error (SqlError.other "pq: duplicate key value violates unique constraint"),
        { db1 with table := ⟨db.table.rows, id + 1⟩ })
    else
      (Except.ok id,
        { db1 with table := ⟨db.table.rows ++ [⟨id, name, age, doctor, none⟩], id + 1⟩ })

/-- Modelled from the spec: `SELECT id, name, age, doctor, prescription FROM patients
WHERE id=$1` through `QueryRow(...).Scan`: the first matching row, `sql.ErrNoRows`
when there is none. -/
def DB.queryRowSelect (db : DB) (id : Int) : Except SqlError Row × DB :=
  let db1 := db.sent (Stmt.select id)
  match db.fault with
  | some msg => (Except.error (SqlError.other msg), db1)
  | none =>
    match db.table.rows.find? (fun r => r.id == id) with
    | none => (Except.error SqlError.errNoRows, db1)
    | some r => (Except.ok r, db1)

/-- Modelled from the spec: `UPDATE patients SET name=$1, age=$2, doctor=$3 WHERE id=$4`
through `Exec`: every matching row gets the three values; zero matching rows is not
an error. -/
def DB.execUpdate (db : DB) (name : String) (age : Int) (doctor : String) (id : Int) :
    Except SqlError Unit × DB :=
  let db1 := db.sent (Stmt.update name age doctor id)
  match db.fault with
  | some msg => (Except.error (SqlError.other msg), db1)
  | none =>
    (Except.ok (),
      { db1 with table :=
          ⟨db.table.rows.map (fun r =>
              if r.id == id then { r with name := name, age := age, doctor := doctor } else r),
            db.table.nextId⟩ })

/-- Modelled from the spec: `UPDATE patients SET prescription=$1 WHERE id=$2` through
`Exec`.  The argument is the Go `*string`: a nil pointer is bound as NULL, a non-nil
pointer as the string it points to. -/
def DB.execUpdatePrescription (db : DB) (prescription : Option String) (id : Int) :
    Except SqlError Unit × DB :=
  let db1 := db.sent (Stmt.updatePrescription prescription id)
  match db.fault with
  | some msg => (Except.error (SqlError.other msg), db1)
  | none =>
    (Except.ok (),
      { db1 with table :=
          ⟨db.table.rows.map (fun r =>
              if r.id == id then { r with prescription := prescription } else r),
            db.table.nextId⟩ })

/-- Modelled from the spec: `DELETE FROM patients WHERE id=$1` through `Exec`: every
matching row is removed; zero matching rows is not an error. -/
def DB.execDelete (db : DB) (id : Int) : Except SqlError Unit × DB :=
  let db1 := db.sent (Stmt.delete id)
  match db.fault with
  | some msg => (Except.error (SqlError.other msg), db1)
  | none =>
    (Except.ok (),
      { db1 with table := ⟨db.table.rows.filter (fun r => r.id != id), db.table.nextId⟩ })

/-! ## The handlers -/

/-- Handler `addPatientHandler` (main.go 62-79). -/
def addPatientHandler (db : DB) (r : Request) : Response × DB :=
  match r.body with
  | Except.error e => (httpError e StatusBadRequest, db)
  | Except.ok patient =>
    match db.queryRowInsert patient.Name patient.Age patient.Doctor with
    | (Except.error err, db1) =>
      (httpError ("Failed to insert patient: " ++ err.Error) StatusInternalServerError, db1)
    | (Except.ok id, db1) =>
      let patient := { patient with ID := id }
      (writeJSON StatusCreated patient, db1)

/-- Handler `getPatientHandler` (main.go 82-111). -/
def getPatientHandler (db : DB) (r : Request) : Response × DB :=
  match atoi r.id with
  | none => (httpError "Invalid patient ID" StatusBadRequest, db)
  | some id =>
    match db.queryRowSelect id with
    | (Except.error SqlError.errNoRows, db1) =>
      (httpError "Patient not found" StatusNotFound, db1)
    | (Except.error err, db1) =>
      (httpError ("Failed to query patient: " ++ err.Error) StatusInternalServerError, db1)
    | (Except.ok row, db1) =>
      let prescription := scanNullString row.prescription
      let patient : Patient :=
        { Patient.zero with ID := row.id, Name := row.name, Age := row.age, Doctor := row.doctor }
      let patient :=
        if prescription.Valid then { patient with Prescription := some prescription.String }
        else { patient with Prescription := none }
      (writeJSON StatusOK patient, db1)

/-- Handler `updatePatientHandler` (main.go 114-137). -/
def updatePatientHandler (db : DB) (r : Request) : Response × DB :=
  match atoi r.id with
  | none => (httpError "Invalid patient ID" StatusBadRequest, db)
  | some id =>
    match r.body with
    | Except.error e => (httpError e StatusBadRequest, db)
    | Except.ok patient =>
      let patient := { patient with ID := id }
      match db.execUpdate patient.Name patient.Age patient.Doctor patient.ID with
      | (Except.error err, db1) =>
        (httpError ("Failed to update patient: " ++ err.Error) StatusInternalServerError, db1)
      | (Except.ok _, db1) => (writeJSON StatusOK patient, db1)

/-- Handler `updatePrescriptionHandler` (main.go 140-163). -/
def updatePrescriptionHandler (db : DB) (r : Request) : Response × DB :=
  match atoi r.id with
  | none => (httpError "Invalid patient ID" StatusBadRequest, db)
  | some id =>
    match r.body with
    | Except.error e => (httpError e StatusBadRequest, db)
    | Except.ok patient =>
      let patient := { patient with ID := id }
      match db.execUpdatePrescription patient.Prescription patient.ID with
      | (Except.error err, db1) =>
        (httpError ("Failed to update prescription: " ++ err.Error) StatusInternalServerError, db1)
      | (Except.ok _, db1) => (writeJSON StatusOK patient, db1)

/-- Handler `deletePatientHandler` (main.go 166-181). -/
def deletePatientHandler (db : DB) (r : Request) : Response × DB :=
  match atoi r.id with
  | none => (httpError "Invalid patient ID" StatusBadRequest, db)
  | some id =>
    match db.execDelete id with
    | (Except.error err, db1) =>
      (httpError ("Failed to delete patient: " ++ err.Error) StatusInternalServerError, db1)
    | (Except.ok _, db1) => (⟨StatusNoContent, Body.empty⟩, db1)

/-- Field of the JSON object a response carries, `none` when the body is not a JSON
object or the key is absent from it. -/
def Response.field (resp : Response) (k : String) : Option JVal :=
  match resp.body with
  | Body.json obj => jsonGet obj k
  | _ => none

/-- Keys of the JSON object a response carries, none when the body is not a JSON
object. -/
def Response.keys (resp : Response) : List String :=
  match resp.body with
  | Body.json obj => jsonKeys obj
  | _ => []

/-! ## Sample data -/

/-- A reachable store holding the given table, nothing sent yet. -/
def DB.up (t : Table) : DB := ⟨t, none, []⟩

def aliceRow : Row := ⟨1, "Alice", 40, "Dr. Smith", none⟩
def bobRow : Row := ⟨2, "Bob", 31, "Dr. Jones", some ""⟩
def sampleTable : Table := ⟨[aliceRow, bobRow], 3⟩
def sampleDB : DB := DB.up sampleTable


/-! ## How the statements act on a reachable store -/

theorem queryRowSelect_up (db : DB) (id : Int) (hup : db.fault = none) :
    db.queryRowSelect id =
      (match db.table.rows.find? (fun r => r.id == id) with
       | none => Except.error SqlError.errNoRows
       | some r => Except.ok r, db.sent (Stmt.select id)) := by
  unfold DB.queryRowSelect
  rw [hup]
  cases db.table.rows.find? (fun r => r.id == id) <;> rfl

theorem find_none_of_missing (rows : List Row) (id : Int)
    (hmiss : ∀ row ∈ rows, row.id ≠ id) : rows.find? (fun r => r.id == id) = none := by
  rw [List.find?_eq_none]
  intro row hrow
  simpa using hmiss row hrow

theorem getPatientHandler_found (db : DB) (r : Request) (id : Int) (row : Row)
    (hid : atoi r.id = some id) (hup : db.fault = none)
    (hrow : db.table.rows.find? (fun x => x.id == id) = some row) :
    getPatientHandler db r =
      (writeJSON StatusOK ⟨row.id, row.name, row.age, row.doctor, row.prescription⟩,
        db.sent (Stmt.select id)) := by
  unfold getPatientHandler
  rw [hid]
  simp only [queryRowSelect_up db id hup, hrow]
  cases hp : row.prescription <;> simp [scanNullString, Patient.zero]

theorem getPatientHandler_missing (db : DB) (r : Request) (id : Int)
    (hid : atoi r.id = some id) (hup : db.fault = none)
    (hmiss : ∀ row ∈ db.table.rows, row.id ≠ id) :
    getPatientHandler db r =
      (httpError "Patient not found" StatusNotFound, db.sent (Stmt.select id)) := by
  unfold getPatientHandler
  rw [hid]
  simp only [queryRowSelect_up db id hup, find_none_of_missing _ _ hmiss]

theorem updatePatientHandler_up (db : DB) (r : Request) (id : Int) (p : Patient)
    (hid : atoi r.id = some id) (hbody : r.body = Except.ok p) (hup : db.fault = none) :
    updatePatientHandler db r =
      (writeJSON StatusOK { p with ID := id },
        { db.sent (Stmt.update p.Name p.Age p.Doctor id) with
          table := ⟨db.table.rows.map (fun x =>
              if x.id == id then { x with name := p.Name, age := p.Age, doctor := p.Doctor }
              else x), db.table.nextId⟩ }) := by
  unfold updatePatientHandler DB.execUpdate
  rw [hid, hbody]
  simp only [hup]

theorem updatePrescriptionHandler_up (db : DB) (r : Request) (id : Int) (p : Patient)
    (hid : atoi r.id = some id) (hbody : r.body = Except.ok p) (hup : db.fault = none) :
    updatePrescriptionHandler db r =
      (writeJSON StatusOK { p with ID := id },
        { db.sent (Stmt.updatePrescription p.Prescription id) with
          table := ⟨db.table.rows.map (fun x =>
              if x.id == id then { x with prescription := p.Prescription } else x),
            db.table.nextId⟩ }) := by
  unfold updatePrescriptionHandler DB.execUpdatePrescription
  rw [hid, hbody]
  simp only [hup]

theorem deletePatientHandler_up (db : DB) (r : Request) (id : Int)
    (hid : atoi r.id = some id) (hup : db.fault = none) :
    deletePatientHandler db r =
      (⟨StatusNoContent, Body.empty⟩,
        { db.sent (Stmt.delete id) with
          table := ⟨db.table.rows.filter (fun x => x.id != id), db.table.nextId⟩ }) := by
  unfold deletePatientHandler DB.execDelete
  rw [hid]
  simp only [hup]

/-! ## Reading encoded patients -/

theorem field_writeJSON_id (code : Nat) (p : Patient) :
    (writeJSON code p).field "id" = some (JVal.num p.ID) := by
  simp [writeJSON, Response.field, jsonGet, encodePatient]

theorem field_writeJSON_name (code : Nat) (p : Patient) :
    (writeJSON code p).field "name" = some (JVal.str p.Name) := by
  simp [writeJSON, Response.field, jsonGet, encodePatient, List.find?_cons]

theorem field_writeJSON_age (code : Nat) (p : Patient) :
    (writeJSON code p).field "age" = some (JVal.num p.Age) := by
  simp [writeJSON, Response.field, jsonGet, encodePatient, List.find?_cons]

theorem field_writeJSON_doctor (code : Nat) (p : Patient) :
    (writeJSON code p).field "doctor" = some (JVal.str p.Doctor) := by
  simp [writeJSON, Response.field, jsonGet, encodePatient, List.find?_cons]

theorem field_writeJSON_prescription (code : Nat) (p : Patient) :
    (writeJSON code p).field "prescription" = p.Prescription.map JVal.str := by
  cases hp : p.Prescription <;>
    simp [writeJSON, Response.field, jsonGet, encodePatient, hp, List.find?]

theorem keys_writeJSON_prescription (code : Nat) (p : Patient) :
    "prescription" ∈ (writeJSON code p).keys ↔ p.Prescription ≠ none := by
  cases hp : p.Prescription <;>
    simp [writeJSON, Response.keys, jsonKeys, encodePatient, hp]

theorem field_writeJSON_other (code : Nat) (a : Int) (b : String) (c : Int) (d : String)
    (x y : Option String) (k : String) (hk : k ≠ "prescription") :
    (writeJSON code ⟨a, b, c, d, x⟩).field k = (writeJSON code ⟨a, b, c, d, y⟩).field k := by
  have hk2 : ("prescription" == k) = false := by
    simp only [beq_eq_false_iff_ne]
    exact fun h => hk h.symm
  cases x <;> cases y <;>
    simp [writeJSON, Response.field, jsonGet, encodePatient, List.find?_cons, hk2]

/-! ## Missing identifiers -/

/-- C5: on a reachable store that holds no row for the parsed identifier, the query
reports `sql.ErrNoRows` and `getPatientHandler` answers 404 "Patient not found",
which is neither 500 nor 200. -/
theorem get_missing_is_not_found (db : DB) (r : Request) (id : Int)
    (hid : atoi r.id = some id) (hup : db.fault = none)
    (hmiss : ∀ row ∈ db.table.rows, row.id ≠ id) :
    (db.queryRowSelect id).1 = Except.error SqlError.errNoRows ∧
    (getPatientHandler db r).1 = httpError "Patient not found" StatusNotFound ∧
    (getPatientHandler db r).1.status = 404 ∧
    (getPatientHandler db r).1.status ≠ 500 ∧
    (getPatientHandler db r).1.status ≠ 200 := by
  have hq : (db.queryRowSelect id).1 = Except.error SqlError.errNoRows := by
    rw [queryRowSelect_up db id hup, find_none_of_missing _ _ hmiss]
  rw [getPatientHandler_missing db r id hid hup hmiss]
  exact ⟨hq, rfl, rfl, Nat.ne_of_beq_eq_false rfl, Nat.ne_of_beq_eq_false rfl⟩

theorem get_missing_is_not_found_witness :
    atoi "7" = some 7 ∧ sampleDB.fault = none ∧
    (∀ row ∈ sampleDB.table.rows, row.id ≠ 7) ∧
    (sampleDB.queryRowSelect 7).1 = Except.error SqlError.errNoRows ∧
    (getPatientHandler sampleDB ⟨"7", Except.error "EOF"⟩).1
      = httpError "Patient not found" StatusNotFound ∧
    (getPatientHandler sampleDB ⟨"7", Except.error "EOF"⟩).1.status = 404 ∧
    (getPatientHandler sampleDB ⟨"7", Except.error "EOF"⟩).1.status ≠ 500 ∧
    (getPatientHandler sampleDB ⟨"7", Except.error "EOF"⟩).1.status ≠ 200 :=
  ⟨by decide, rfl, by decide,
    get_missing_is_not_found sampleDB ⟨"7", Except.error "EOF"⟩ 7 (by decide) rfl (by decide)⟩

/-- C8: on a reachable store that holds no row for the parsed identifier, both
`updatePatientHandler` and `updatePrescriptionHandler` answer 200 with the decoded
body whose `ID` is replaced by the path identifier (the response carries the path
identifier under "id" and the name, age, doctor and prescription of the body), and
the table afterwards (rows and sequence) is the table before. -/
theorem update_missing_is_noop_success (db : DB) (r : Request) (id : Int) (p : Patient)
    (hid : atoi r.id = some id) (hbody : r.body = Except.ok p) (hup : db.fault = none)
    (hmiss : ∀ row ∈ db.table.rows, row.id ≠ id) :
    (updatePatientHandler db r).1 = writeJSON StatusOK { p with ID := id } ∧
    (updatePatientHandler db r).1.status = 200 ∧
    (updatePatientHandler db r).2.table = db.table ∧
    (updatePrescriptionHandler db r).1 = writeJSON StatusOK { p with ID := id } ∧
    (updatePrescriptionHandler db r).1.status = 200 ∧
    (updatePrescriptionHandler db r).2.table = db.table ∧
    ((updatePatientHandler db r).1.field "id" = some (JVal.num id) ∧
      (updatePatientHandler db r).1.field "name" = some (JVal.str p.Name) ∧
      (updatePatientHandler db r).1.field "age" = some (JVal.num p.Age) ∧
      (updatePatientHandler db r).1.field "doctor" = some (JVal.str p.Doctor) ∧
      (updatePatientHandler db r).1.field "prescription" = p.Prescription.map JVal.str ∧
      ("prescription" ∈ (updatePatientHandler db r).1.keys ↔ p.Prescription ≠ none)) ∧
    ((updatePrescriptionHandler db r).1.field "id" = some (JVal.num id) ∧
      (updatePrescriptionHandler db r).1.field "name" = some (JVal.str p.Name) ∧
      (updatePrescriptionHandler db r).1.field "age" = some (JVal.num p.Age) ∧
      (updatePrescriptionHandler db r).1.field "doctor" = some (JVal.str p.Doctor) ∧
      (updatePrescriptionHandler db r).1.field "prescription" = p.Prescription.map JVal.str ∧
      ("prescription" ∈ (updatePrescriptionHandler db r).1.keys ↔ p.Prescription ≠ none)) := by
  have hmap : ∀ f : Row → Row,
      db.table.rows.map (fun x => if x.id == id then f x else x) = db.table.rows := by
    intro f
    conv_rhs => rw [← List.map_id db.table.rows]
    apply List.map_congr_left
    intro x hx
    have hne : x.id ≠ id := hmiss x hx
    simp [hne]
  have hecho : ∀ resp : Response, resp = writeJSON StatusOK { p with ID := id } →
      resp.field "id" = some (JVal.num id) ∧
      resp.field "name" = some (JVal.str p.Name) ∧
      resp.field "age" = some (JVal.num p.Age) ∧
      resp.field "doctor" = some (JVal.str p.Doctor) ∧
      resp.field "prescription" = p.Prescription.map JVal.str ∧
      ("prescription" ∈ resp.keys ↔ p.Prescription ≠ none) := by
    intro resp hresp
    rw [hresp]
    exact ⟨field_writeJSON_id _ _, field_writeJSON_name _ _, field_writeJSON_age _ _,
      field_writeJSON_doctor _ _, field_writeJSON_prescription _ _,
      keys_writeJSON_prescription _ _⟩
  have h1 := updatePatientHandler_up db r id p hid hbody hup
  have h2 := updatePrescriptionHandler_up db r id p hid hbody hup
  refine ⟨?_, ?_, ?_, ?_, ?_, ?_, hecho _ (by rw [h1]), hecho _ (by rw [h2])⟩
  · rw [h1]
  · rw [h1]; rfl
  · rw [h1]
    show Table.mk _ _ = db.table
    rw [hmap]
  · rw [h2]
  · rw [h2]; rfl
  · rw [h2]
    show Table.mk _ _ = db.table
    rw [hmap]

theorem update_missing_is_noop_success_witness :
    atoi "7" = some 7 ∧ sampleDB.fault = none ∧
    (∀ row ∈ sampleDB.table.rows, row.id ≠ 7) ∧
    (updatePatientHandler sampleDB ⟨"7", Except.ok ⟨99, "Zed", 50, "Dr. Who", some "x"⟩⟩).1.status
      = 200 ∧
    (updatePatientHandler sampleDB ⟨"7", Except.ok ⟨99, "Zed", 50, "Dr. Who", some "x"⟩⟩).2.table
      = sampleDB.table ∧
    (updatePrescriptionHandler sampleDB
        ⟨"7", Except.ok ⟨99, "Zed", 50, "Dr. Who", some "x"⟩⟩).1.status = 200 ∧
    (updatePrescriptionHandler sampleDB
        ⟨"7", Except.ok ⟨99, "Zed", 50, "Dr. Who", some "x"⟩⟩).2.table = sampleDB.table ∧
    (updatePatientHandler sampleDB
        ⟨"7", Except.ok ⟨99, "Zed", 50, "Dr. Who", some "x"⟩⟩).1.field "id"
      = some (JVal.num 7) ∧
    (updatePrescriptionHandler sampleDB
        ⟨"7", Except.ok ⟨99, "Zed", 50, "Dr. Who", some "x"⟩⟩).1.field "name"
      = some (JVal.str "Zed") :=
  ⟨by decide, rfl, by decide,
    (update_missing_is_noop_success sampleDB
      ⟨"7", Except.ok ⟨99, "Zed", 50, "Dr. Who", some "x"⟩⟩
      7 ⟨99, "Zed", 50, "Dr. Who", some "x"⟩ (by decide) rfl rfl (by decide)).2.1,
    (update_missing_is_noop_success sampleDB
      ⟨"7", Except.ok ⟨99, "Zed", 50, "Dr. Who", some "x"⟩⟩
      7 ⟨99, "Zed", 50, "Dr. Who", some "x"⟩ (by decide) rfl rfl (by decide)).2.2.1,
    (update_missing_is_noop_success sampleDB
      ⟨"7", Except.ok ⟨99, "Zed", 50, "Dr. Who", some "x"⟩⟩
      7 ⟨99, "Zed", 50, "Dr. Who", some "x"⟩ (by decide) rfl rfl (by decide)).2.2.2.2.1,
    (update_missing_is_noop_success sampleDB
      ⟨"7", Except.ok ⟨99, "Zed", 50, "Dr. Who", some "x"⟩⟩
      7 ⟨99, "Zed", 50, "Dr. Who", some "x"⟩ (by decide) rfl rfl (by decide)).2.2.2.2.2.1,
    (update_missing_is_noop_success sampleDB
      ⟨"7", Except.ok ⟨99, "Zed", 50, "Dr. Who", some "x"⟩⟩
      7 ⟨99, "Zed", 50, "Dr. Who", some "x"⟩ (by decide) rfl rfl (by decide)).2.2.2.2.2.2.1.1,
    (update_missing_is_noop_success sampleDB
      ⟨"7", Except.ok ⟨99, "Zed", 50, "Dr. Who", some "x"⟩⟩
      7 ⟨99, "Zed", 50, "Dr. Who", some "x"⟩ (by decide) rfl rfl (by decide)).2.2.2.2.2.2.2.2.1⟩

/-! ## Delete -/

/-- C6: on a reachable store, for every parsed identifier (whether or not a row has
it), `deletePatientHandler` answers 204 with an empty body, leaves no row with that
identifier and keeps exactly the other rows (and the sequence); run again on the
result it answers 204 again and leaves the table as the first run left it. -/
theorem delete_is_idempotent (db : DB) (r : Request) (id : Int)
    (hid : atoi r.id = some id) (hup : db.fault = none) :
    (deletePatientHandler db r).1 = ⟨StatusNoContent, Body.empty⟩ ∧
    (deletePatientHandler db r).1.status = 204 ∧
    (∀ row ∈ (deletePatientHandler db r).2.table.rows, row.id ≠ id) ∧
    (deletePatientHandler db r).2.table.rows
      = db.table.rows.filter (fun row => decide (row.id ≠ id)) ∧
    (∀ row, row.id ≠ id →
      (row ∈ (deletePatientHandler db r).2.table.rows ↔ row ∈ db.table.rows)) ∧
    (deletePatientHandler db r).2.table.nextId = db.table.nextId ∧
    (deletePatientHandler (deletePatientHandler db r).2 r).1 = ⟨StatusNoContent, Body.empty⟩ ∧
    (deletePatientHandler (deletePatientHandler db r).2 r).2.table
      = (deletePatientHandler db r).2.table := by
  have h1 := deletePatientHandler_up db r id hid hup
  have hup2 : (deletePatientHandler db r).2.fault = none := by rw [h1]; exact hup
  have h2 := deletePatientHandler_up (deletePatientHandler db r).2 r id hid hup2
  have hrows : (deletePatientHandler db r).2.table.rows
      = db.table.rows.filter (fun row => decide (row.id ≠ id)) := by
    rw [h1]
    show db.table.rows.filter (fun x => x.id != id) = _
    congr 1
    funext x
    by_cases hx : x.id = id <;> simp [hx]
  have hnext : (deletePatientHandler db r).2.table.nextId = db.table.nextId := by
    rw [h1]
  refine ⟨?_, ?_, ?_, hrows, ?_, hnext, ?_, ?_⟩
  · rw [h1]
  · rw [h1]; rfl
  · intro row hrow
    rw [hrows] at hrow
    simpa using (List.mem_filter.mp hrow).2
  · intro row hne
    rw [hrows, List.mem_filter]
    simp [hne]
  · rw [h2]
  · rw [h2]
    show Table.mk _ _ = _
    have hfix : (deletePatientHandler db r).2.table.rows.filter (fun x => x.id != id)
        = (deletePatientHandler db r).2.table.rows := by
      rw [List.filter_eq_self]
      intro row hrow
      rw [hrows] at hrow
      have := (List.mem_filter.mp hrow).2
      simpa using this
    rw [hfix]

theorem delete_is_idempotent_witness :
    (deletePatientHandler sampleDB ⟨"2", Except.error "EOF"⟩).1 = ⟨StatusNoContent, Body.empty⟩ ∧
    (deletePatientHandler sampleDB ⟨"2", Except.error "EOF"⟩).1.status = 204 ∧
    (∀ row ∈ (deletePatientHandler sampleDB ⟨"2", Except.error "EOF"⟩).2.table.rows,
      row.id ≠ 2) ∧
    (deletePatientHandler sampleDB ⟨"2", Except.error "EOF"⟩).2.table.rows
      = sampleDB.table.rows.filter (fun row => decide (row.id ≠ 2)) ∧
    (∀ row, row.id ≠ 2 →
      (row ∈ (deletePatientHandler sampleDB ⟨"2", Except.error "EOF"⟩).2.table.rows
        ↔ row ∈ sampleDB.table.rows)) ∧
    (deletePatientHandler sampleDB ⟨"2", Except.error "EOF"⟩).2.table.nextId
      = sampleDB.table.nextId ∧
    (deletePatientHandler (deletePatientHandler sampleDB ⟨"2", Except.error "EOF"⟩).2
      ⟨"2", Except.error "EOF"⟩).1 = ⟨StatusNoContent, Body.empty⟩ ∧
    (deletePatientHandler (deletePatientHandler sampleDB ⟨"2", Except.error "EOF"⟩).2
      ⟨"2", Except.error "EOF"⟩).2.table
      = (deletePatientHandler sampleDB ⟨"2", Except.error "EOF"⟩).2.table :=
  delete_is_idempotent sampleDB ⟨"2", Except.error "EOF"⟩ 2 (by decide) rfl

/-! ## Client input errors -/

/-- C9: a path identifier that `strconv.Atoi` rejects makes `getPatientHandler`,
`updatePatientHandler`, `updatePrescriptionHandler` and `deletePatientHandler` answer
400 "Invalid patient ID", and a body that fails to decode makes `addPatientHandler`,
`updatePatientHandler` and `updatePrescriptionHandler` answer 400; in each case the
handle is returned as it was given (same table, nothing added to the record of
statements sent), whether or not the store is reachable. -/
theorem client_errors_touch_no_store (db : DB) (r : Request) :
    (atoi r.id = none →
      getPatientHandler db r = (httpError "Invalid patient ID" StatusBadRequest, db) ∧
      updatePatientHandler db r = (httpError "Invalid patient ID" StatusBadRequest, db) ∧
      updatePrescriptionHandler db r = (httpError "Invalid patient ID" StatusBadRequest, db) ∧
      deletePatientHandler db r = (httpError "Invalid patient ID" StatusBadRequest, db)) ∧
    (∀ e, r.body = Except.error e →
      addPatientHandler db r = (httpError e StatusBadRequest, db) ∧
      (updatePatientHandler db r).1.status = 400 ∧
      (updatePatientHandler db r).2 = db ∧
      (atoi r.id ≠ none → (updatePatientHandler db r).1 = httpError e StatusBadRequest) ∧
      (updatePrescriptionHandler db r).1.status = 400 ∧
      (updatePrescriptionHandler db r).2 = db ∧
      (atoi r.id ≠ none → (updatePrescriptionHandler db r).1 = httpError e StatusBadRequest)) := by
  constructor
  · intro hid
    simp [getPatientHandler, updatePatientHandler, updatePrescriptionHandler,
      deletePatientHandler, hid]
  · intro e he
    cases hid : atoi r.id <;>
      simp [addPatientHandler, updatePatientHandler, updatePrescriptionHandler, hid, he,
        httpError, StatusBadRequest]

theorem client_errors_touch_no_store_witness :
    atoi "abc" = none ∧
    (getPatientHandler sampleDB ⟨"abc", Except.ok Patient.zero⟩
        = (httpError "Invalid patient ID" StatusBadRequest, sampleDB) ∧
      updatePatientHandler sampleDB ⟨"abc", Except.ok Patient.zero⟩
        = (httpError "Invalid patient ID" StatusBadRequest, sampleDB) ∧
      updatePrescriptionHandler sampleDB ⟨"abc", Except.ok Patient.zero⟩
        = (httpError "Invalid patient ID" StatusBadRequest, sampleDB) ∧
      deletePatientHandler sampleDB ⟨"abc", Except.ok Patient.zero⟩
        = (httpError "Invalid patient ID" StatusBadRequest, sampleDB)) ∧
    addPatientHandler sampleDB ⟨"1", Except.error "unexpected EOF"⟩
      = (httpError "unexpected EOF" StatusBadRequest, sampleDB) ∧
    (updatePatientHandler sampleDB ⟨"1", Except.error "unexpected EOF"⟩).2 = sampleDB :=
  ⟨by decide,
    (client_errors_touch_no_store sampleDB ⟨"abc", Except.ok Patient.zero⟩).1 (by decide),
    ((client_errors_touch_no_store sampleDB ⟨"1", Except.error "unexpected EOF"⟩).2
      "unexpected EOF" rfl).1,
    ((client_errors_touch_no_store sampleDB ⟨"1", Except.error "unexpected EOF"⟩).2
      "unexpected EOF" rfl).2.2.1⟩

/-! ## Frame properties of the two updates -/

theorem forall₂_map_of_pointwise (R : Row → Row → Prop) (f : Row → Row) (rows : List Row)
    (h : ∀ x, R x (f x)) : List.Forall₂ R rows (rows.map f) := by
  induction rows with
  | nil => exact List.Forall₂.nil
  | cons x xs ih => exact List.Forall₂.cons (h x) ih

theorem updatePatientHandler_table (db : DB) (r : Request) :
    (updatePatientHandler db r).2.table = db.table ∨
    ∃ id p, atoi r.id = some id ∧ r.body = Except.ok p ∧
      (updatePatientHandler db r).2.table =
        ⟨db.table.rows.map (fun x =>
            if x.id == id then { x with name := p.Name, age := p.Age, doctor := p.Doctor }
            else x), db.table.nextId⟩ := by
  cases hid : atoi r.id with
  | none => left; simp [updatePatientHandler, hid]
  | some id =>
    cases hbody : r.body with
    | error e => left; simp [updatePatientHandler, hid, hbody]
    | ok p =>
      cases hup : db.fault with
      | some msg => left; simp [updatePatientHandler, DB.execUpdate, hid, hbody, hup, DB.sent]
      | none =>
        right
        exact ⟨id, p, rfl, rfl, by rw [updatePatientHandler_up db r id p hid hbody hup]⟩

theorem updatePrescriptionHandler_table (db : DB) (r : Request) :
    (updatePrescriptionHandler db r).2.table = db.table ∨
    ∃ id p, atoi r.id = some id ∧ r.body = Except.ok p ∧
      (updatePrescriptionHandler db r).2.table =
        ⟨db.table.rows.map (fun x =>
            if x.id == id then { x with prescription := p.Prescription } else x),
          db.table.nextId⟩ := by
  cases hid : atoi r.id with
  | none => left; simp [updatePrescriptionHandler, hid]
  | some id =>
    cases hbody : r.body with
    | error e => left; simp [updatePrescriptionHandler, hid, hbody]
    | ok p =>
      cases hup : db.fault with
      | some msg =>
        left; simp [updatePrescriptionHandler, DB.execUpdatePrescription, hid, hbody, hup, DB.sent]
      | none =>
        right
        exact ⟨id, p, rfl, rfl, by rw [updatePrescriptionHandler_up db r id p hid hbody hup]⟩

/-- C3: for every store, path identifier and request body, after `updatePatientHandler`
the table has the same rows in the same positions, each with the identifier and the
prescription it had before; a row whose identifier is not the parsed path identifier
is unchanged altogether, and the sequence is unchanged. -/
theorem full_update_never_alters_prescription (db : DB) (r : Request) :
    List.Forall₂
      (fun old new => new.id = old.id ∧ new.prescription = old.prescription ∧
        (atoi r.id ≠ some old.id → new = old))
      db.table.rows (updatePatientHandler db r).2.table.rows ∧
    (updatePatientHandler db r).2.table.rows.map Row.prescription
      = db.table.rows.map Row.prescription ∧
    (updatePatientHandler db r).2.table.nextId = db.table.nextId := by
  rcases updatePatientHandler_table db r with h | ⟨id, p, hid, _, h⟩
  · rw [h]
    exact ⟨List.forall₂_same.mpr (fun x _ => ⟨rfl, rfl, fun _ => rfl⟩), rfl, rfl⟩
  · rw [h, hid]
    refine ⟨forall₂_map_of_pointwise _ _ _ ?_, ?_, rfl⟩
    · intro x
      by_cases hx : x.id = id
      · simp [hx]
      · have hx2 : id ≠ x.id := fun h => hx h.symm
        simp [hx, hx2]
    · show List.map Row.prescription (List.map _ _) = _
      rw [List.map_map]
      apply List.map_congr_left
      intro x _
      by_cases hx : x.id = id <;> simp [hx]

/-- C10: for every store, path identifier and request body, after
`updatePrescriptionHandler` the table has the same rows in the same positions, each
with the identifier, name, age and doctor it had before; a row whose identifier is not
the parsed path identifier is unchanged altogether; the identifiers present are the
same; and the outcome does not depend on the `ID` carried by the body. -/
theorem prescription_update_touches_only_prescription (db : DB) (r : Request) :
    List.Forall₂
      (fun old new => new.id = old.id ∧ new.name = old.name ∧ new.age = old.age ∧
        new.doctor = old.doctor ∧ (atoi r.id ≠ some old.id → new = old))
      db.table.rows (updatePrescriptionHandler db r).2.table.rows ∧
    (updatePrescriptionHandler db r).2.table.rows.map Row.id = db.table.rows.map Row.id ∧
    (updatePrescriptionHandler db r).2.table.nextId = db.table.nextId ∧
    (∀ (p : Patient) (j : Int),
      updatePrescriptionHandler db ⟨r.id, Except.ok { p with ID := j }⟩
        = updatePrescriptionHandler db ⟨r.id, Except.ok p⟩) := by
  refine ⟨?_, ?_⟩
  · rcases updatePrescriptionHandler_table db r with h | ⟨id, p, hid, _, h⟩
    · rw [h]
      exact List.forall₂_same.mpr (fun x _ => ⟨rfl, rfl, rfl, rfl, fun _ => rfl⟩)
    · rw [h, hid]
      refine forall₂_map_of_pointwise _ _ _ ?_
      intro x
      by_cases hx : x.id = id
      · simp [hx]
      · have hx2 : id ≠ x.id := fun h => hx h.symm
        simp [hx, hx2]
  refine ⟨?_, ?_, ?_⟩
  · rcases updatePrescriptionHandler_table db r with h | ⟨id, p, hid, _, h⟩
    · rw [h]
    · rw [h]
      show List.map Row.id (List.map _ _) = _
      rw [List.map_map]
      apply List.map_congr_left
      intro x _
      by_cases hx : x.id = id <;> simp [hx]
  · rcases updatePrescriptionHandler_table db r with h | ⟨id, p, hid, _, h⟩
    · rw [h]
    · rw [h]
  · intro p j
    cases hid : atoi r.id <;> simp [updatePrescriptionHandler, hid]

/-! ## Create -/

theorem addPatientHandler_created (db : DB) (r : Request) (p : Patient)
    (hbody : r.body = Except.ok p)
    (hok : (addPatientHandler db r).1.status = StatusCreated) :
    db.fault = none ∧
    db.table.rows.any (fun x => x.id == db.table.nextId) = false ∧
    addPatientHandler db r =
      (writeJSON StatusCreated { p with ID := db.table.nextId },
        { db.sent (Stmt.insert p.Name p.Age p.Doctor) with
          table := ⟨db.table.rows ++ [⟨db.table.nextId, p.Name, p.Age, p.Doctor, none⟩],
            db.table.nextId + 1⟩ }) := by
  unfold addPatientHandler DB.queryRowInsert at hok ⊢
  rw [hbody] at hok ⊢
  cases hup : db.fault with
  | some msg =>
    rw [hup] at hok
    exact absurd hok (by simp [httpError, StatusInternalServerError, StatusCreated])
  | none =>
    rw [hup] at hok
    cases hany : db.table.rows.any (fun x => x.id == db.table.nextId) with
    | true =>
      simp only [hany] at hok
      exact absurd hok (by simp [httpError, StatusInternalServerError, StatusCreated])
    | false => simp [hany]

/-- C1: when `addPatientHandler` answers 201 and its response carries id `i`, then
`getPatientHandler` for `i` on the store it left answers 200 with a JSON object that
carries `i` under "id", the name, age and doctor of the creation payload under "name",
"age" and "doctor", and no "prescription" key, whatever id or prescription the payload
itself carried. -/
theorem create_then_get_round_trip (db : DB) (r g : Request) (p : Patient) (i : Int)
    (hbody : r.body = Except.ok p)
    (hok : (addPatientHandler db r).1.status = StatusCreated)
    (hret : (addPatientHandler db r).1.field "id" = some (JVal.num i))
    (hg : atoi g.id = some i) :
    (getPatientHandler (addPatientHandler db r).2 g).1
      = writeJSON StatusOK ⟨i, p.Name, p.Age, p.Doctor, none⟩ ∧
    (getPatientHandler (addPatientHandler db r).2 g).1.status = 200 ∧
    (getPatientHandler (addPatientHandler db r).2 g).1.field "prescription" = none ∧
    "prescription" ∉ (getPatientHandler (addPatientHandler db r).2 g).1.keys ∧
    (getPatientHandler (addPatientHandler db r).2 g).1.field "id" = some (JVal.num i) ∧
    (getPatientHandler (addPatientHandler db r).2 g).1.field "name" = some (JVal.str p.Name) ∧
    (getPatientHandler (addPatientHandler db r).2 g).1.field "age" = some (JVal.num p.Age) ∧
    (getPatientHandler (addPatientHandler db r).2 g).1.field "doctor"
      = some (JVal.str p.Doctor) := by
  obtain ⟨hup, hfree, hadd⟩ := addPatientHandler_created db r p hbody hok
  have hi : db.table.nextId = i := by
    rw [hadd, field_writeJSON_id] at hret
    simpa using hret
  have hfind : (addPatientHandler db r).2.table.rows.find? (fun x => x.id == i)
      = some ⟨i, p.Name, p.Age, p.Doctor, none⟩ := by
    rw [hadd]
    show (db.table.rows ++ [Row.mk db.table.nextId p.Name p.Age p.Doctor none]).find?
      (fun x => x.id == i) = _
    have hnone : db.table.rows.find? (fun x => x.id == i) = none := by
      rw [List.find?_eq_none]
      intro x hx
      have := List.any_eq_false.mp hfree x hx
      rw [hi] at this
      simpa using this
    rw [List.find?_append, hnone, hi]
    simp
  have hup2 : (addPatientHandler db r).2.fault = none := by rw [hadd]; exact hup
  have hget := getPatientHandler_found (addPatientHandler db r).2 g i _ hg hup2 hfind
  rw [hget]
  refine ⟨rfl, rfl, ?_, ?_, field_writeJSON_id _ _, field_writeJSON_name _ _,
    field_writeJSON_age _ _, field_writeJSON_doctor _ _⟩
  · rw [field_writeJSON_prescription]
    rfl
  · rw [keys_writeJSON_prescription]
    simp

theorem create_then_get_round_trip_witness :
    (addPatientHandler sampleDB
      ⟨"", Except.ok ⟨77, "Carol", 5, "Dr. X", some "Ibuprofen 200mg"⟩⟩).1.status
        = StatusCreated ∧
    (addPatientHandler sampleDB
      ⟨"", Except.ok ⟨77, "Carol", 5, "Dr. X", some "Ibuprofen 200mg"⟩⟩).1.field "id"
        = some (JVal.num 3) ∧
    atoi "3" = some 3 ∧
    (getPatientHandler (addPatientHandler sampleDB
      ⟨"", Except.ok ⟨77, "Carol", 5, "Dr. X", some "Ibuprofen 200mg"⟩⟩).2
        ⟨"3", Except.error "EOF"⟩).1 = writeJSON StatusOK ⟨3, "Carol", 5, "Dr. X", none⟩ ∧
    (getPatientHandler (addPatientHandler sampleDB
      ⟨"", Except.ok ⟨77, "Carol", 5, "Dr. X", some "Ibuprofen 200mg"⟩⟩).2
        ⟨"3", Except.error "EOF"⟩).1.field "name" = some (JVal.str "Carol") ∧
    (getPatientHandler (addPatientHandler sampleDB
      ⟨"", Except.ok ⟨77, "Carol", 5, "Dr. X", some "Ibuprofen 200mg"⟩⟩).2
        ⟨"3", Except.error "EOF"⟩).1.field "age" = some (JVal.num 5) :=
  ⟨by decide, by decide, by decide,
    (create_then_get_round_trip sampleDB
      ⟨"", Except.ok ⟨77, "Carol", 5, "Dr. X", some "Ibuprofen 200mg"⟩⟩
      ⟨"3", Except.error "EOF"⟩ ⟨77, "Carol", 5, "Dr. X", some "Ibuprofen 200mg"⟩ 3
      rfl (by decide) (by decide) (by decide)).1,
    (create_then_get_round_trip sampleDB
      ⟨"", Except.ok ⟨77, "Carol", 5, "Dr. X", some "Ibuprofen 200mg"⟩⟩
      ⟨"3", Except.error "EOF"⟩ ⟨77, "Carol", 5, "Dr. X", some "Ibuprofen 200mg"⟩ 3
      rfl (by decide) (by decide) (by decide)).2.2.2.2.2.1,
    (create_then_get_round_trip sampleDB
      ⟨"", Except.ok ⟨77, "Carol", 5, "Dr. X", some "Ibuprofen 200mg"⟩⟩
      ⟨"3", Except.error "EOF"⟩ ⟨77, "Carol", 5, "Dr. X", some "Ibuprofen 200mg"⟩ 3
      rfl (by decide) (by decide) (by decide)).2.2.2.2.2.2.1⟩

theorem addPatientHandler_of_insert_ok (db : DB) (r : Request) (p : Patient) (i : Int)
    (hbody : r.body = Except.ok p)
    (hins : (db.queryRowInsert p.Name p.Age p.Doctor).1 = Except.ok i) :
    i = db.table.nextId ∧
    addPatientHandler db r =
      (writeJSON StatusCreated { p with ID := i },
        { db.sent (Stmt.insert p.Name p.Age p.Doctor) with
          table := ⟨db.table.rows ++ [⟨i, p.Name, p.Age, p.Doctor, none⟩], i + 1⟩ }) := by
  unfold addPatientHandler
  rw [hbody]
  unfold DB.queryRowInsert at hins ⊢
  cases hup : db.fault with
  | some msg =>
    rw [hup] at hins
    simp at hins
  | none =>
    rw [hup] at hins
    cases hany : db.table.rows.any (fun x => x.id == db.table.nextId) with
    | true =>
      simp only [hany] at hins
      simp at hins
    | false =>
      simp only [hany] at hins
      have hi : db.table.nextId = i := by simpa using hins
      subst hi
      simp [hany]

/-- C4, as the code has it: whenever the insert succeeds and the store returns id `i`,
`addPatientHandler` answers 201 with a JSON object that carries `i` (the next value of
the store sequence, not the ID of the payload) under "id" and the name, age and doctor
of the payload; its "prescription" is the prescription of the payload echoed back, so
the key is omitted exactly when the payload carried none; the inserted row holds a NULL
prescription in either case. -/
theorem add_response_echoes_payload (db : DB) (r : Request) (p : Patient) (i : Int)
    (hbody : r.body = Except.ok p)
    (hins : (db.queryRowInsert p.Name p.Age p.Doctor).1 = Except.ok i) :
    (addPatientHandler db r).1.status = 201 ∧
    i = db.table.nextId ∧
    (addPatientHandler db r).1.field "id" = some (JVal.num i) ∧
    (addPatientHandler db r).1.field "name" = some (JVal.str p.Name) ∧
    (addPatientHandler db r).1.field "age" = some (JVal.num p.Age) ∧
    (addPatientHandler db r).1.field "doctor" = some (JVal.str p.Doctor) ∧
    (addPatientHandler db r).1.field "prescription" = p.Prescription.map JVal.str ∧
    ("prescription" ∈ (addPatientHandler db r).1.keys ↔ p.Prescription ≠ none) ∧
    (addPatientHandler db r).2.table.rows
      = db.table.rows ++ [⟨i, p.Name, p.Age, p.Doctor, none⟩] := by
  obtain ⟨hi, hadd⟩ := addPatientHandler_of_insert_ok db r p i hbody hins
  rw [hadd]
  exact ⟨rfl, hi, field_writeJSON_id _ _, field_writeJSON_name _ _, field_writeJSON_age _ _,
    field_writeJSON_doctor _ _, field_writeJSON_prescription _ _,
    keys_writeJSON_prescription _ _, rfl⟩

theorem add_response_echoes_payload_witness :
    (sampleDB.queryRowInsert "Dave" 63 "Dr. Lee").1 = Except.ok 3 ∧
    (addPatientHandler sampleDB
      ⟨"", Except.ok ⟨77, "Dave", 63, "Dr. Lee", some "Paracetamol"⟩⟩).1.status = 201 ∧
    (addPatientHandler sampleDB
      ⟨"", Except.ok ⟨77, "Dave", 63, "Dr. Lee", some "Paracetamol"⟩⟩).1.field "id"
        = some (JVal.num 3) ∧
    (addPatientHandler sampleDB
      ⟨"", Except.ok ⟨77, "Dave", 63, "Dr. Lee", some "Paracetamol"⟩⟩).1.field "prescription"
        = some (JVal.str "Paracetamol") ∧
    (addPatientHandler sampleDB
      ⟨"", Except.ok ⟨77, "Dave", 63, "Dr. Lee", some "Paracetamol"⟩⟩).2.table.rows
        = [aliceRow, bobRow, ⟨3, "Dave", 63, "Dr. Lee", none⟩] :=
  ⟨rfl,
    (add_response_echoes_payload sampleDB
      ⟨"", Except.ok ⟨77, "Dave", 63, "Dr. Lee", some "Paracetamol"⟩⟩
      ⟨77, "Dave", 63, "Dr. Lee", some "Paracetamol"⟩ 3 rfl rfl).1,
    (add_response_echoes_payload sampleDB
      ⟨"", Except.ok ⟨77, "Dave", 63, "Dr. Lee", some "Paracetamol"⟩⟩
      ⟨77, "Dave", 63, "Dr. Lee", some "Paracetamol"⟩ 3 rfl rfl).2.2.1,
    (add_response_echoes_payload sampleDB
      ⟨"", Except.ok ⟨77, "Dave", 63, "Dr. Lee", some "Paracetamol"⟩⟩
      ⟨77, "Dave", 63, "Dr. Lee", some "Paracetamol"⟩ 3 rfl rfl).2.2.2.2.2.2.1,
    (add_response_echoes_payload sampleDB
      ⟨"", Except.ok ⟨77, "Dave", 63, "Dr. Lee", some "Paracetamol"⟩⟩
      ⟨77, "Dave", 63, "Dr. Lee", some "Paracetamol"⟩ 3 rfl rfl).2.2.2.2.2.2.2.2⟩

/-- C4 as stated fails: a creation payload that carries a prescription is answered 201
with the store-assigned id 3 (not the payload's 77), yet the response carries that
prescription instead of omitting it, while the inserted row holds NULL. -/
theorem add_response_prescription_not_omitted :
    (addPatientHandler sampleDB
      ⟨"", Except.ok ⟨77, "Carol", 5, "Dr. X", some "Ibuprofen 200mg"⟩⟩).1.status
        = StatusCreated ∧
    (addPatientHandler sampleDB
      ⟨"", Except.ok ⟨77, "Carol", 5, "Dr. X", some "Ibuprofen 200mg"⟩⟩).1.field "id"
        = some (JVal.num 3) ∧
    (addPatientHandler sampleDB
      ⟨"", Except.ok ⟨77, "Carol", 5, "Dr. X", some "Ibuprofen 200mg"⟩⟩).1.field "prescription"
        = some (JVal.str "Ibuprofen 200mg") ∧
    ¬ ((addPatientHandler sampleDB
      ⟨"", Except.ok ⟨77, "Carol", 5, "Dr. X", some "Ibuprofen 200mg"⟩⟩).1.field "prescription"
        = none) ∧
    "prescription" ∈ (addPatientHandler sampleDB
      ⟨"", Except.ok ⟨77, "Carol", 5, "Dr. X", some "Ibuprofen 200mg"⟩⟩).1.keys ∧
    (addPatientHandler sampleDB
      ⟨"", Except.ok ⟨77, "Carol", 5, "Dr. X", some "Ibuprofen 200mg"⟩⟩).2.table.rows
        = [aliceRow, bobRow, ⟨3, "Carol", 5, "Dr. X", none⟩] := by
  decide

/-! ## Prescription -/

theorem find_map_keeping_id (f : Row → Row) (hf : ∀ x, (f x).id = x.id) (i : Int)
    (rows : List Row) :
    (rows.map f).find? (fun x => x.id == i) = (rows.find? (fun x => x.id == i)).map f := by
  induction rows with
  | nil => rfl
  | cons x xs ih =>
    by_cases hx : x.id = i
    · simp [List.find?_cons, hf, hx]
    · simp [List.find?_cons, hf, hx, ih]

theorem find_setPrescription (rows : List Row) (i : Int) (v : Option String) :
    (rows.map (fun x => if x.id == i then { x with prescription := v } else x)).find?
        (fun x => x.id == i)
      = (rows.find? (fun x => x.id == i)).map (fun x => { x with prescription := v }) := by
  rw [find_map_keeping_id]
  · cases hfind : rows.find? (fun x => x.id == i) with
    | none => rfl
    | some row =>
      have hrow : row.id = i := by simpa using List.find?_some hfind
      simp [hrow]
  · intro x
    by_cases hx : x.id = i <;> simp [hx]

theorem exists_first_of_mem (rows : List Row) (i : Int) (row : Row)
    (hmem : row ∈ rows) (hrow : row.id = i) :
    ∃ first, rows.find? (fun x => x.id == i) = some first ∧ first.id = i := by
  cases hfind : rows.find? (fun x => x.id == i) with
  | none =>
    have := List.find?_eq_none.mp hfind row hmem
    simp [hrow] at this
  | some first => exact ⟨first, rfl, by simpa using List.find?_some hfind⟩

/-- C2: on a reachable store that contains a row with identifier `i`,
`updatePrescriptionHandler` on `i` followed by `getPatientHandler` on `i` answers 200
for id `i` with the prescription of the update body: exactly the string `s` when
the body carried `s`, and no prescription key at all when the body carried null; every
other field of the answer is what a get before the update returned. -/
theorem prescription_set_then_get (db : DB) (r g : Request) (p : Patient) (i : Int) (row : Row)
    (hup : db.fault = none) (hid : atoi r.id = some i) (hg : atoi g.id = some i)
    (hbody : r.body = Except.ok p) (hmem : row ∈ db.table.rows) (hrow : row.id = i) :
    (getPatientHandler (updatePrescriptionHandler db r).2 g).1.status = 200 ∧
    (getPatientHandler (updatePrescriptionHandler db r).2 g).1.field "id" = some (JVal.num i) ∧
    (∀ s, p.Prescription = some s →
      (getPatientHandler (updatePrescriptionHandler db r).2 g).1.field "prescription"
        = some (JVal.str s)) ∧
    (p.Prescription = none →
      (getPatientHandler (updatePrescriptionHandler db r).2 g).1.field "prescription" = none ∧
      "prescription" ∉ (getPatientHandler (updatePrescriptionHandler db r).2 g).1.keys) ∧
    (∀ k, k ≠ "prescription" →
      (getPatientHandler (updatePrescriptionHandler db r).2 g).1.field k
        = (getPatientHandler db g).1.field k) := by
  obtain ⟨first, hfirst, hfid⟩ := exists_first_of_mem db.table.rows i row hmem hrow
  have hupd := updatePrescriptionHandler_up db r i p hid hbody hup
  have hup2 : (updatePrescriptionHandler db r).2.fault = none := by rw [hupd]; exact hup
  have hfind : (updatePrescriptionHandler db r).2.table.rows.find? (fun x => x.id == i)
      = some { first with prescription := p.Prescription } := by
    rw [hupd]
    show (db.table.rows.map _).find? _ = _
    rw [find_setPrescription, hfirst]
    rfl
  rw [getPatientHandler_found _ g i _ hg hup2 hfind,
    getPatientHandler_found db g i first hg hup hfirst]
  refine ⟨rfl, ?_, ?_, ?_, ?_⟩
  · rw [field_writeJSON_id]
    show some (JVal.num first.id) = _
    rw [hfid]
  · intro s hs
    rw [field_writeJSON_prescription]
    show Option.map JVal.str p.Prescription = _
    rw [hs]
    rfl
  · intro hnone
    constructor
    · rw [field_writeJSON_prescription]
      show Option.map JVal.str p.Prescription = _
      rw [hnone]
      rfl
    · rw [keys_writeJSON_prescription]
      show ¬ (p.Prescription ≠ none)
      simp [hnone]
  · intro k hk
    exact field_writeJSON_other _ _ _ _ _ _ _ k hk

theorem prescription_set_then_get_witness :
    (getPatientHandler (updatePrescriptionHandler sampleDB
        ⟨"1", Except.ok ⟨0, "", 0, "", some "Ibuprofen 200mg"⟩⟩).2
      ⟨"1", Except.error "EOF"⟩).1.status = 200 ∧
    (getPatientHandler (updatePrescriptionHandler sampleDB
        ⟨"1", Except.ok ⟨0, "", 0, "", some "Ibuprofen 200mg"⟩⟩).2
      ⟨"1", Except.error "EOF"⟩).1.field "prescription" = some (JVal.str "Ibuprofen 200mg") :=
  ⟨(prescription_set_then_get sampleDB ⟨"1", Except.ok ⟨0, "", 0, "", some "Ibuprofen 200mg"⟩⟩
      ⟨"1", Except.error "EOF"⟩ ⟨0, "", 0, "", some "Ibuprofen 200mg"⟩ 1 aliceRow
      rfl (by decide) (by decide) rfl (by decide) rfl).1,
    (prescription_set_then_get sampleDB ⟨"1", Except.ok ⟨0, "", 0, "", some "Ibuprofen 200mg"⟩⟩
      ⟨"1", Except.error "EOF"⟩ ⟨0, "", 0, "", some "Ibuprofen 200mg"⟩ 1 aliceRow
      rfl (by decide) (by decide) rfl (by decide) rfl).2.2.1 "Ibuprofen 200mg" rfl⟩

/-- C7: on a reachable store, when `row` is the row held for the parsed identifier,
`getPatientHandler` answers 200 with a JSON object that has the key "prescription"
exactly when the stored prescription is not NULL; a stored empty string comes back as
the empty string under that key; and `updatePrescriptionHandler` with a body whose
prescription is the empty string leaves the row holding the empty string, not NULL. -/
theorem prescription_absent_versus_empty (db : DB) (r : Request) (id : Int) (row : Row)
    (hid : atoi r.id = some id) (hup : db.fault = none)
    (hrow : db.table.rows.find? (fun x => x.id == id) = some row) :
    (getPatientHandler db r).1.status = 200 ∧
    ("prescription" ∈ (getPatientHandler db r).1.keys ↔ row.prescription ≠ none) ∧
    (getPatientHandler db r).1.field "prescription" = row.prescription.map JVal.str ∧
    (row.prescription = some "" →
      (getPatientHandler db r).1.field "prescription" = some (JVal.str "")) ∧
    (∀ p, r.body = Except.ok p → p.Prescription = some "" →
      (updatePrescriptionHandler db r).2.table.rows.find? (fun x => x.id == id)
        = some { row with prescription := some "" } ∧
      (getPatientHandler (updatePrescriptionHandler db r).2 r).1.field "prescription"
        = some (JVal.str "")) := by
  rw [getPatientHandler_found db r id row hid hup hrow]
  refine ⟨rfl, keys_writeJSON_prescription _ _, field_writeJSON_prescription _ _, ?_, ?_⟩
  · intro hempty
    rw [field_writeJSON_prescription]
    show Option.map JVal.str row.prescription = _
    rw [hempty]
    rfl
  · intro p hbody hp
    have hupd := updatePrescriptionHandler_up db r id p hid hbody hup
    have hup2 : (updatePrescriptionHandler db r).2.fault = none := by rw [hupd]; exact hup
    have hfind : (updatePrescriptionHandler db r).2.table.rows.find? (fun x => x.id == id)
        = some { row with prescription := some "" } := by
      rw [hupd]
      show (db.table.rows.map _).find? _ = _
      rw [find_setPrescription, hrow, hp]
      rfl
    refine ⟨hfind, ?_⟩
    rw [getPatientHandler_found _ r id _ hid hup2 hfind, field_writeJSON_prescription]
    rfl

theorem prescription_absent_versus_empty_witness :
    atoi "2" = some 2 ∧
    sampleDB.table.rows.find? (fun x => x.id == 2) = some bobRow ∧
    bobRow.prescription = some "" ∧
    (getPatientHandler sampleDB ⟨"2", Except.error "EOF"⟩).1.field "prescription"
      = some (JVal.str "") :=
  ⟨by decide, by decide, rfl,
    (prescription_absent_versus_empty sampleDB ⟨"2", Except.error "EOF"⟩ 2 bobRow
      (by decide) rfl (by decide)).2.2.2.1 rfl⟩

end PatientApi
